import Mathlib

/-!
Shallow embedding of the input-abstraction core of the `pygame-sandbox`
repository (`src/controller.py`, `sandbox/model.py`): the `Control` and
`Controller` data model, the keyboard and gamepad survey algorithms, the
`Mover` translation algorithm, and theorems about their behaviour.

Python mutable objects are modelled by pure state-passing: each method
becomes a function taking the receiver state and returning the updated
state.  Analog axis readings and positions (Python floats used only under
addition, subtraction, `abs` and order comparisons) are modelled as `ℚ`.
The host library collaborators are modelled as explicit inputs: the digital
key-state table `pygame.key.get_pressed()` as a function `Int → Bool`, and
the joystick `get_axis` poll as a function `Int → ℚ` (with an `Except`
variant for an unavailable device, which in pygame raises).
-/

/-- `Control.__init__(key_number)`: bound raw input id, inactive, value 0. -/
structure Control where
  key_number : Int
  activated : Bool
  value : ℚ
  deriving Repr, DecidableEq

/-- Constructor `Control(key_number)` from `controller.py` lines 14-17. -/
def Control.init (key_number : Int) : Control :=
  { key_number := key_number, activated := false, value := 0 }

/-- `Control.activate(value=1)` (lines 34-42): sets `_activated = True`,
`_value = value`. -/
def Control.activate (c : Control) (value : ℚ := 1) : Control :=
  { c with activated := true, value := value }

/-- `Control.deactivate()` (lines 44-48): sets `_activated = False`, `_value = 0`. -/
def Control.deactivate (c : Control) : Control :=
  { c with activated := false, value := 0 }

/-- `Control.update_key_number(key_number)` (lines 31-32). -/
def Control.update_key_number (c : Control) (key_number : Int) : Control :=
  { c with key_number := key_number }

/-- The four directional `Control`s owned by a `Controller`
(`Controller.__init__`, lines 53-57). -/
@[ext]
structure ControllerState where
  move_up : Control
  move_right : Control
  move_down : Control
  move_left : Control
  deriving Repr, DecidableEq

/-- `Controller.__init__`: four controls each bound to raw input 0. -/
def Controller.init : ControllerState :=
  { move_up := Control.init 0, move_right := Control.init 0,
    move_down := Control.init 0, move_left := Control.init 0 }

/-- `Controller.deactivate_all_controls()` (lines 98-102). -/
def Controller.deactivate_all_controls (s : ControllerState) : ControllerState :=
  let s := { s with move_right := s.move_right.deactivate }
  let s := { s with move_left := s.move_left.deactivate }
  let s := { s with move_up := s.move_up.deactivate }
  { s with move_down := s.move_down.deactivate }

/-- Modelled from the spec: the external settings collaborator
(`settings.ControlSettings`, module not under `src/`) supplies, per
direction, an opaque integer raw input identifier, read at the call sites
as `settings.right.value` etc. -/
structure SettingsKey where
  value : Int
  deriving Repr, DecidableEq

/-- Modelled from the spec: the four per-direction key bindings supplied by
the settings collaborator at keyboard-controller construction. -/
structure ControlSettings where
  right : SettingsKey
  up : SettingsKey
  left : SettingsKey
  down : SettingsKey
  deriving Repr, DecidableEq

/-- `PygameKeyboardController.__init__(settings)` (lines 134-139): binds
each directional control to the configured key code. -/
def PygameKeyboardController.init (settings : ControlSettings) : ControllerState :=
  { move_right := Control.init settings.right.value,
    move_up := Control.init settings.up.value,
    move_left := Control.init settings.left.value,
    move_down := Control.init settings.down.value }

/-- `PygameKeyboardController.conduct_survey_of_controls()` (lines 141-150):
reads the full key-state table once and activates (magnitude 1) each control
whose bound key code the table reports pressed.  A control whose key is not
pressed is not touched. -/
def PygameKeyboardController.conduct_survey_of_controls
    (keys : Int → Bool) (s : ControllerState) : ControllerState :=
  let s := if keys s.move_right.key_number then
    { s with move_right := s.move_right.activate 1 } else s
  let s := if keys s.move_left.key_number then
    { s with move_left := s.move_left.activate 1 } else s
  let s := if keys s.move_up.key_number then
    { s with move_up := s.move_up.activate 1 } else s
  if keys s.move_down.key_number then
    { s with move_down := s.move_down.activate 1 } else s

namespace GamePadAxe

/-- `GamePadAxe.LEFT_STICK_X.value` (enum, line 154). -/
def LEFT_STICK_X : Int := 0

/-- `GamePadAxe.LEFT_STICK_Y.value` (enum, line 155). -/
def LEFT_STICK_Y : Int := 1

end GamePadAxe

/-- `PygameGamepadController.__init__` control bindings (lines 183-186):
up/down bound to the vertical axis, right/left to the horizontal one. -/
def PygameGamepadController.init : ControllerState :=
  { move_up := Control.init GamePadAxe.LEFT_STICK_Y,
    move_right := Control.init GamePadAxe.LEFT_STICK_X,
    move_down := Control.init GamePadAxe.LEFT_STICK_Y,
    move_left := Control.init GamePadAxe.LEFT_STICK_X }

/-- `self._dead_zone = 0.05` (line 182). -/
def PygameGamepadController.init_dead_zone : ℚ := 5 / 100

/-- `PygameGamepadController.conduct_survey_of_controls()` (lines 188-200).
`get_axis` is the joystick's axis poll; `dead_zone` the instance field
`self._dead_zone`.  The walrus `if value := ...` skips the block when the
reading is exactly 0 (falsy float).  Note the negative branch activates
`move_left` / `move_up` with the raw (negative) reading, and no branch ever
deactivates a control. -/
def PygameGamepadController.conduct_survey_of_controls
    (dead_zone : ℚ) (get_axis : Int → ℚ) (s : ControllerState) : ControllerState :=
  let s :=
    let value := get_axis GamePadAxe.LEFT_STICK_X
    if value ≠ 0 then
      if |value| > dead_zone then
        if value > 0 then { s with move_right := s.move_right.activate value }
        else { s with move_left := s.move_left.activate value }
      else s
    else s
  let value := get_axis GamePadAxe.LEFT_STICK_Y
  if value ≠ 0 then
    if |value| > dead_zone then
      if value < 0 then { s with move_up := s.move_up.activate value }
      else { s with move_down := s.move_down.activate value }
    else s
  else s

/-- The joystick device as seen by the survey: `none` models a
disconnected/unavailable joystick, on which pygame's `get_axis` raises
`pygame.error`; `some f` models an available device with axis readings `f`. -/
def Joystick.get_axis (device : Option (Int → ℚ)) (axe : Int) : Except String ℚ :=
  match device with
  | none => Except.error "Joystick not initialized"
  | some f => Except.ok (f axe)

/-- `PygameGamepadController.conduct_survey_of_controls()` with the device's
possible failure made explicit: the method body has no exception handling,
so an error from `get_axis` propagates to the caller unchanged. -/
def PygameGamepadController.conduct_survey_of_controls_exc
    (dead_zone : ℚ) (device : Option (Int → ℚ)) (s : ControllerState) :
    Except String ControllerState := do
  let value ← Joystick.get_axis device GamePadAxe.LEFT_STICK_X
  let s :=
    if value ≠ 0 then
      if |value| > dead_zone then
        if value > 0 then { s with move_right := s.move_right.activate value }
        else { s with move_left := s.move_left.activate value }
      else s
    else s
  let value ← Joystick.get_axis device GamePadAxe.LEFT_STICK_Y
  let s :=
    if value ≠ 0 then
      if |value| > dead_zone then
        if value < 0 then { s with move_up := s.move_up.activate value }
        else { s with move_down := s.move_down.activate value }
      else s
    else s
  return s

/-- `[pygame.joystick.Joystick(x) for x in range(count)][0]`
(`PygameGamepadController.__init__`, lines 177-181): indexing the list of
enumerated joysticks at 0 raises `IndexError` when no joystick is present. -/
def PygameGamepadController.select_gamepad (joystick_count : Nat) : Except String Nat :=
  if joystick_count = 0 then Except.error "list index out of range"
  else Except.ok 0

/-- `model.Point` (`sandbox/model.py` lines 1-4). -/
@[ext]
structure Point where
  x : ℚ
  y : ℚ
  deriving Repr, DecidableEq

/-- `model.Character` (`sandbox/model.py` lines 7-16). -/
structure Character where
  location : Point
  deriving Repr, DecidableEq

/-- `Character.move_to(point)`: replaces the location wholesale. -/
def Character.move_to (c : Character) (point : Point) : Character :=
  { c with location := point }

/-- `Mover._get_new_x(start_x, speed)` (lines 118-123). -/
def Mover.get_new_x (controller : ControllerState) (start_x speed : ℚ) : ℚ :=
  if controller.move_right.activated then
    start_x + controller.move_right.value + speed
  else if controller.move_left.activated then
    start_x - |controller.move_left.value| - speed
  else start_x

/-- `Mover._get_new_y(start_y, speed)` (lines 125-130). -/
def Mover.get_new_y (controller : ControllerState) (start_y speed : ℚ) : ℚ :=
  if controller.move_up.activated then
    start_y - |controller.move_up.value| - speed
  else if controller.move_down.activated then
    start_y + controller.move_down.value + speed
  else start_y

/-- `Mover.move_character(character)` (lines 109-116): `speed = 0`, then
`character.move_to(Point(_get_new_x(...), _get_new_y(...)))`. -/
def Mover.move_character (controller : ControllerState) (character : Character) : Character :=
  let speed : ℚ := 0
  character.move_to
    { x := Mover.get_new_x controller character.location.x speed,
      y := Mover.get_new_y controller character.location.y speed }

/-- The documented `Control` invariant: a deactivated control has value 0. -/
def ControlInvariant (c : Control) : Prop :=
  c.activated = false → c.value = 0

/-- The `Control` invariant on all four controls of a `Controller`. -/
def ControllerInvariant (s : ControllerState) : Prop :=
  ControlInvariant s.move_up ∧ ControlInvariant s.move_right ∧
    ControlInvariant s.move_down ∧ ControlInvariant s.move_left

/-- Two controller states agree on the activation flag and value of all four
directional controls (the key bindings may differ). -/
def SameActivation (a b : ControllerState) : Prop :=
  (a.move_up.activated = b.move_up.activated ∧ a.move_up.value = b.move_up.value) ∧
  (a.move_right.activated = b.move_right.activated ∧ a.move_right.value = b.move_right.value) ∧
  (a.move_down.activated = b.move_down.activated ∧ a.move_down.value = b.move_down.value) ∧
  (a.move_left.activated = b.move_left.activated ∧ a.move_left.value = b.move_left.value)

/-! ### Basic lemmas about `Control` operations -/

@[simp] lemma Control.activate_key_number (c : Control) (v : ℚ) :
    (c.activate v).key_number = c.key_number := rfl

@[simp] lemma Control.activate_activated (c : Control) (v : ℚ) :
    (c.activate v).activated = true := rfl

@[simp] lemma Control.activate_value (c : Control) (v : ℚ) :
    (c.activate v).value = v := rfl

@[simp] lemma Control.activate_activate (c : Control) (v w : ℚ) :
    (c.activate v).activate w = c.activate w := rfl

@[simp] lemma Control.deactivate_key_number (c : Control) :
    c.deactivate.key_number = c.key_number := rfl

@[simp] lemma Control.deactivate_activated (c : Control) :
    c.deactivate.activated = false := rfl

@[simp] lemma Control.deactivate_value (c : Control) :
    c.deactivate.value = 0 := rfl

/-! ### Closed forms of the two survey algorithms

Each survey step reads only the key binding of the control it updates, and
key bindings are never changed by `activate`, so the sequential chain of
conditional updates in the Python bodies is equal to one simultaneous
record update.  All claims about the surveys go through these two lemmas. -/

lemma keyboard_survey_eq (keys : Int → Bool) (s : ControllerState) :
    PygameKeyboardController.conduct_survey_of_controls keys s =
      { move_up := if keys s.move_up.key_number then s.move_up.activate 1 else s.move_up,
        move_right := if keys s.move_right.key_number then s.move_right.activate 1 else s.move_right,
        move_down := if keys s.move_down.key_number then s.move_down.activate 1 else s.move_down,
        move_left := if keys s.move_left.key_number then s.move_left.activate 1 else s.move_left } := by
  simp only [PygameKeyboardController.conduct_survey_of_controls]
  by_cases h1 : keys s.move_right.key_number <;>
    by_cases h2 : keys s.move_left.key_number <;>
      by_cases h3 : keys s.move_up.key_number <;>
        by_cases h4 : keys s.move_down.key_number <;>
          simp [h1, h2, h3, h4]

lemma gamepad_survey_eq (dead_zone : ℚ) (get_axis : Int → ℚ) (s : ControllerState) :
    PygameGamepadController.conduct_survey_of_controls dead_zone get_axis s =
      { move_up := if get_axis 1 ≠ 0 ∧ |get_axis 1| > dead_zone ∧ get_axis 1 < 0 then
          s.move_up.activate (get_axis 1) else s.move_up,
        move_right := if get_axis 0 ≠ 0 ∧ |get_axis 0| > dead_zone ∧ get_axis 0 > 0 then
          s.move_right.activate (get_axis 0) else s.move_right,
        move_down := if get_axis 1 ≠ 0 ∧ |get_axis 1| > dead_zone ∧ ¬get_axis 1 < 0 then
          s.move_down.activate (get_axis 1) else s.move_down,
        move_left := if get_axis 0 ≠ 0 ∧ |get_axis 0| > dead_zone ∧ ¬get_axis 0 > 0 then
          s.move_left.activate (get_axis 0) else s.move_left } := by
  simp only [PygameGamepadController.conduct_survey_of_controls,
    GamePadAxe.LEFT_STICK_X, GamePadAxe.LEFT_STICK_Y]
  by_cases h1 : get_axis 0 = 0 <;>
    by_cases h2 : |get_axis 0| > dead_zone <;>
      by_cases h3 : get_axis 0 > 0 <;>
        by_cases h4 : get_axis 1 = 0 <;>
          by_cases h5 : |get_axis 1| > dead_zone <;>
            by_cases h6 : get_axis 1 < 0 <;>
              simp [h1, h2, h3, h4, h5, h6]

/-! ### Claims C1-C5 -/

/-- C1 (counterexample): dead zone 5/100, horizontal reading v = -1/2 with
|v| > 5/100, prior state where `move_right` is still activated from an
earlier tick.  After the survey the selected control `move_left` carries the
raw signed reading -1/2, not abs(v) = 1/2, and the opposite control
`move_right` is NOT deactivated — contradicting "exactly one of the two
directional Controls on that axis is activated with value == abs(v), and
the Control on the opposite side of that axis is deactivated". -/
theorem C1_counterexample :
    |(-(1/2) : ℚ)| > 5/100 ∧
    (PygameGamepadController.conduct_survey_of_controls (5/100)
        (fun a => if a = 0 then -(1/2) else 0)
        { move_up := Control.init 1, move_right := (Control.init 0).activate (1/2),
          move_down := Control.init 1, move_left := Control.init 0 }).move_left.value
      ≠ |(-(1/2) : ℚ)| ∧
    (PygameGamepadController.conduct_survey_of_controls (5/100)
        (fun a => if a = 0 then -(1/2) else 0)
        { move_up := Control.init 1, move_right := (Control.init 0).activate (1/2),
          move_down := Control.init 1, move_left := Control.init 0 }).move_left.activated = true ∧
    (PygameGamepadController.conduct_survey_of_controls (5/100)
        (fun a => if a = 0 then -(1/2) else 0)
        { move_up := Control.init 1, move_right := (Control.init 0).activate (1/2),
          move_down := Control.init 1, move_left := Control.init 0 }).move_right.activated = true := by
  norm_num [PygameGamepadController.conduct_survey_of_controls, Control.init, Control.activate,
    GamePadAxe.LEFT_STICK_X, GamePadAxe.LEFT_STICK_Y, abs]

/-- C1 (amended): for the gamepad controller, for every dead-zone threshold
d and every axis reading above it in magnitude, on either axis, the survey
activates the directional Control selected by the sign of the reading with
the RAW SIGNED reading (not its absolute value): horizontal v > 0 selects
right, v < 0 selects left; vertical w < 0 selects up, w > 0 selects down
(the device's inverted vertical convention).  The Control on the opposite
side of the axis is left unchanged (it is not deactivated; prior
activation persists). -/
theorem C1_above_deadzone_activates_signed_side (d v w : ℚ) (s : ControllerState) :
    (|v| > d → 0 < v →
      (PygameGamepadController.conduct_survey_of_controls d
          (fun a => if a = 0 then v else w) s).move_right = s.move_right.activate v ∧
      (PygameGamepadController.conduct_survey_of_controls d
          (fun a => if a = 0 then v else w) s).move_left = s.move_left) ∧
    (|v| > d → v < 0 →
      (PygameGamepadController.conduct_survey_of_controls d
          (fun a => if a = 0 then v else w) s).move_left = s.move_left.activate v ∧
      (PygameGamepadController.conduct_survey_of_controls d
          (fun a => if a = 0 then v else w) s).move_right = s.move_right) ∧
    (|w| > d → w < 0 →
      (PygameGamepadController.conduct_survey_of_controls d
          (fun a => if a = 0 then v else w) s).move_up = s.move_up.activate w ∧
      (PygameGamepadController.conduct_survey_of_controls d
          (fun a => if a = 0 then v else w) s).move_down = s.move_down) ∧
    (|w| > d → 0 < w →
      (PygameGamepadController.conduct_survey_of_controls d
          (fun a => if a = 0 then v else w) s).move_down = s.move_down.activate w ∧
      (PygameGamepadController.conduct_survey_of_controls d
          (fun a => if a = 0 then v else w) s).move_up = s.move_up) := by
  refine ⟨fun h hv => ?_, fun h hv => ?_, fun h hw => ?_, fun h hw => ?_⟩ <;>
    rw [gamepad_survey_eq]
  · simp [hv, hv.ne', h, not_lt.mpr hv.le]
  · simp [hv, hv.ne, h, not_lt.mpr hv.le]
  · simp [hw, hw.ne, h]
  · simp [hw, hw.ne', h, not_lt.mpr hw.le]

/-- C1 (witness): the amended theorem applied at dead zone 5/100 twice: at
readings (v, w) = (-1/2, 3/4) it gives the left and down cases, and at
readings (v, w) = (1/2, -3/4) the right and up cases, each on a fresh
gamepad controller state. -/
theorem C1_above_deadzone_activates_signed_side_witness :
    ((PygameGamepadController.conduct_survey_of_controls (5/100)
        (fun a => if a = 0 then -(1/2) else 3/4)
        PygameGamepadController.init).move_left
      = PygameGamepadController.init.move_left.activate (-(1/2)) ∧
    (PygameGamepadController.conduct_survey_of_controls (5/100)
        (fun a => if a = 0 then -(1/2) else 3/4)
        PygameGamepadController.init).move_right
      = PygameGamepadController.init.move_right) ∧
    ((PygameGamepadController.conduct_survey_of_controls (5/100)
        (fun a => if a = 0 then -(1/2) else 3/4)
        PygameGamepadController.init).move_down
      = PygameGamepadController.init.move_down.activate (3/4) ∧
    (PygameGamepadController.conduct_survey_of_controls (5/100)
        (fun a => if a = 0 then -(1/2) else 3/4)
        PygameGamepadController.init).move_up
      = PygameGamepadController.init.move_up) ∧
    ((PygameGamepadController.conduct_survey_of_controls (5/100)
        (fun a => if a = 0 then 1/2 else -(3/4))
        PygameGamepadController.init).move_right
      = PygameGamepadController.init.move_right.activate (1/2) ∧
    (PygameGamepadController.conduct_survey_of_controls (5/100)
        (fun a => if a = 0 then 1/2 else -(3/4))
        PygameGamepadController.init).move_left
      = PygameGamepadController.init.move_left) ∧
    ((PygameGamepadController.conduct_survey_of_controls (5/100)
        (fun a => if a = 0 then 1/2 else -(3/4))
        PygameGamepadController.init).move_up
      = PygameGamepadController.init.move_up.activate (-(3/4)) ∧
    (PygameGamepadController.conduct_survey_of_controls (5/100)
        (fun a => if a = 0 then 1/2 else -(3/4))
        PygameGamepadController.init).move_down
      = PygameGamepadController.init.move_down) :=
  ⟨(C1_above_deadzone_activates_signed_side (5/100) (-(1/2)) (3/4)
      PygameGamepadController.init).2.1 (by norm_num [abs]) (by norm_num),
   (C1_above_deadzone_activates_signed_side (5/100) (-(1/2)) (3/4)
      PygameGamepadController.init).2.2.2 (by norm_num [abs]) (by norm_num),
   (C1_above_deadzone_activates_signed_side (5/100) (1/2) (-(3/4))
      PygameGamepadController.init).1 (by norm_num [abs]) (by norm_num),
   (C1_above_deadzone_activates_signed_side (5/100) (1/2) (-(3/4))
      PygameGamepadController.init).2.2.1 (by norm_num [abs]) (by norm_num)⟩

/-- C2 (counterexample): dead zone 5/100, horizontal reading v = 1/50 with
|v| ≤ 5/100, prior state where `move_right` is activated.  After the survey
`move_right` is still activated with its old value — the survey does not
deactivate the axis's controls inside the dead zone, contradicting "both
Controls sharing that axis are deactivated". -/
theorem C2_counterexample :
    |(1/50 : ℚ)| ≤ 5/100 ∧
    (PygameGamepadController.conduct_survey_of_controls (5/100)
        (fun a => if a = 0 then 1/50 else 0)
        { move_up := Control.init 1, move_right := (Control.init 0).activate (1/2),
          move_down := Control.init 1, move_left := Control.init 0 }).move_right.activated
      = true := by
  norm_num [PygameGamepadController.conduct_survey_of_controls, Control.init, Control.activate,
    GamePadAxe.LEFT_STICK_X, GamePadAxe.LEFT_STICK_Y, abs]

/-- C2 (amended): for the gamepad controller, for every dead-zone threshold
d and every axis reading within the dead zone in magnitude, on either axis,
the survey leaves BOTH Controls sharing that axis unchanged: with |v| ≤ d
the horizontal controls (right/left) keep their prior state, and with
|w| ≤ d the vertical controls (up/down) keep theirs; nothing is
deactivated, and any prior activation persists. -/
theorem C2_within_deadzone_leaves_axis_unchanged (d v w : ℚ) (s : ControllerState) :
    (|v| ≤ d →
      (PygameGamepadController.conduct_survey_of_controls d
          (fun a => if a = 0 then v else w) s).move_right = s.move_right ∧
      (PygameGamepadController.conduct_survey_of_controls d
          (fun a => if a = 0 then v else w) s).move_left = s.move_left) ∧
    (|w| ≤ d →
      (PygameGamepadController.conduct_survey_of_controls d
          (fun a => if a = 0 then v else w) s).move_up = s.move_up ∧
      (PygameGamepadController.conduct_survey_of_controls d
          (fun a => if a = 0 then v else w) s).move_down = s.move_down) := by
  refine ⟨fun h => ?_, fun h => ?_⟩ <;> rw [gamepad_survey_eq] <;>
    simp [not_lt.mpr h]

/-- C2 (witness): the amended theorem applied at dead zone 5/100 with both
readings at 1/50, on a state whose `move_right` and `move_up` are
activated: all four controls keep their prior state. -/
theorem C2_within_deadzone_leaves_axis_unchanged_witness :
    ((PygameGamepadController.conduct_survey_of_controls (5/100)
        (fun a => if a = 0 then 1/50 else 1/50)
        { move_up := (Control.init 1).activate (3/4), move_right := (Control.init 0).activate (1/2),
          move_down := Control.init 1, move_left := Control.init 0 }).move_right
      = (Control.init 0).activate (1/2) ∧
    (PygameGamepadController.conduct_survey_of_controls (5/100)
        (fun a => if a = 0 then 1/50 else 1/50)
        { move_up := (Control.init 1).activate (3/4), move_right := (Control.init 0).activate (1/2),
          move_down := Control.init 1, move_left := Control.init 0 }).move_left
      = Control.init 0) ∧
    ((PygameGamepadController.conduct_survey_of_controls (5/100)
        (fun a => if a = 0 then 1/50 else 1/50)
        { move_up := (Control.init 1).activate (3/4), move_right := (Control.init 0).activate (1/2),
          move_down := Control.init 1, move_left := Control.init 0 }).move_up
      = (Control.init 1).activate (3/4) ∧
    (PygameGamepadController.conduct_survey_of_controls (5/100)
        (fun a => if a = 0 then 1/50 else 1/50)
        { move_up := (Control.init 1).activate (3/4), move_right := (Control.init 0).activate (1/2),
          move_down := Control.init 1, move_left := Control.init 0 }).move_down
      = Control.init 1) :=
  ⟨(C2_within_deadzone_leaves_axis_unchanged (5/100) (1/50) (1/50)
      { move_up := (Control.init 1).activate (3/4), move_right := (Control.init 0).activate (1/2),
        move_down := Control.init 1, move_left := Control.init 0 }).1 (by norm_num [abs]),
   (C2_within_deadzone_leaves_axis_unchanged (5/100) (1/50) (1/50)
      { move_up := (Control.init 1).activate (3/4), move_right := (Control.init 0).activate (1/2),
        move_down := Control.init 1, move_left := Control.init 0 }).2 (by norm_num [abs])⟩

/-- C3 (counterexample): a key-state table with no key pressed, prior state
where `move_right` is activated with value 1/2.  After the keyboard survey
`move_right` is still activated with its old value — the survey never calls
deactivate() on controls whose keys are not pressed, contradicting "the
resulting activation state is fully determined by the instantaneous table
and does not accumulate state across calls". -/
theorem C3_counterexample :
    (PygameKeyboardController.conduct_survey_of_controls (fun _ => false)
        { move_up := Control.init 1, move_right := (Control.init 0).activate (1/2),
          move_down := Control.init 1, move_left := Control.init 0 }).move_right.activated
      = true ∧
    (PygameKeyboardController.conduct_survey_of_controls (fun _ => false)
        { move_up := Control.init 1, move_right := (Control.init 0).activate (1/2),
          move_down := Control.init 1, move_left := Control.init 0 }).move_right.value
      = 1/2 := by
  norm_num [PygameKeyboardController.conduct_survey_of_controls, Control.init, Control.activate]

/-- C3 (amended): for the keyboard controller, for every digital key-state
table and every prior Control state, conduct_survey_of_controls calls
activate() with magnitude 1 on each of the four directional Controls whose
bound key code the table reports pressed, and LEAVES UNCHANGED each Control
whose key code is not pressed (it never calls deactivate), so activation
accumulates across calls until explicitly cleared. -/
theorem C3_keyboard_survey_activates_only (keys : Int → Bool) (s : ControllerState) :
    ((PygameKeyboardController.conduct_survey_of_controls keys s).move_right
      = if keys s.move_right.key_number then s.move_right.activate 1 else s.move_right) ∧
    ((PygameKeyboardController.conduct_survey_of_controls keys s).move_left
      = if keys s.move_left.key_number then s.move_left.activate 1 else s.move_left) ∧
    ((PygameKeyboardController.conduct_survey_of_controls keys s).move_up
      = if keys s.move_up.key_number then s.move_up.activate 1 else s.move_up) ∧
    ((PygameKeyboardController.conduct_survey_of_controls keys s).move_down
      = if keys s.move_down.key_number then s.move_down.activate 1 else s.move_down) := by
  rw [keyboard_survey_eq]
  exact ⟨rfl, rfl, rfl, rfl⟩

/-- C4: the Mover direction-to-displacement laws.  `_get_new_x` gives
start_x + right.value + speed whenever `right` is activated (right wins over
left even if both are activated), start_x - abs(left.value) - speed when
only `left` is activated, and start_x when neither is; `_get_new_y` is
symmetric with `up` taking priority over `down`; and `move_character`
assigns the location computed by these two functions at speed = 0. -/
theorem C4_mover_priority (ctrl : ControllerState) (start_x start_y speed : ℚ)
    (ch : Character) :
    (ctrl.move_right.activated = true →
      Mover.get_new_x ctrl start_x speed = start_x + ctrl.move_right.value + speed) ∧
    (ctrl.move_right.activated = false → ctrl.move_left.activated = true →
      Mover.get_new_x ctrl start_x speed = start_x - |ctrl.move_left.value| - speed) ∧
    (ctrl.move_right.activated = false → ctrl.move_left.activated = false →
      Mover.get_new_x ctrl start_x speed = start_x) ∧
    (ctrl.move_up.activated = true →
      Mover.get_new_y ctrl start_y speed = start_y - |ctrl.move_up.value| - speed) ∧
    (ctrl.move_up.activated = false → ctrl.move_down.activated = true →
      Mover.get_new_y ctrl start_y speed = start_y + ctrl.move_down.value + speed) ∧
    (ctrl.move_up.activated = false → ctrl.move_down.activated = false →
      Mover.get_new_y ctrl start_y speed = start_y) ∧
    (Mover.move_character ctrl ch).location =
      { x := Mover.get_new_x ctrl ch.location.x 0,
        y := Mover.get_new_y ctrl ch.location.y 0 } := by
  refine ⟨fun h1 => ?_, fun h1 h2 => ?_, fun h1 h2 => ?_,
    fun h1 => ?_, fun h1 h2 => ?_, fun h1 h2 => ?_, rfl⟩
  · simp [Mover.get_new_x, h1]
  · simp [Mover.get_new_x, h1, h2]
  · simp [Mover.get_new_x, h1, h2]
  · simp [Mover.get_new_y, h1]
  · simp [Mover.get_new_y, h1, h2]
  · simp [Mover.get_new_y, h1, h2]

/-- C4 (witness): the priority laws applied to a concrete state with both
horizontal controls and both vertical controls activated: right wins over
left, up wins over down. -/
theorem C4_mover_priority_witness :
    Mover.get_new_x
        { move_up := (Control.init 0).activate 2, move_right := (Control.init 0).activate 2,
          move_down := (Control.init 0).activate 5, move_left := (Control.init 0).activate 5 }
        300 0
      = 300 +
        ({ move_up := (Control.init 0).activate 2, move_right := (Control.init 0).activate 2,
           move_down := (Control.init 0).activate 5, move_left := (Control.init 0).activate 5 }
            : ControllerState).move_right.value + 0 ∧
    Mover.get_new_y
        { move_up := (Control.init 0).activate 2, move_right := (Control.init 0).activate 2,
          move_down := (Control.init 0).activate 5, move_left := (Control.init 0).activate 5 }
        100 0
      = 100 -
        |({ move_up := (Control.init 0).activate 2, move_right := (Control.init 0).activate 2,
            move_down := (Control.init 0).activate 5, move_left := (Control.init 0).activate 5 }
            : ControllerState).move_up.value| - 0 :=
  ⟨(C4_mover_priority
      { move_up := (Control.init 0).activate 2, move_right := (Control.init 0).activate 2,
        move_down := (Control.init 0).activate 5, move_left := (Control.init 0).activate 5 }
      300 100 0 { location := { x := 300, y := 100 } }).1 rfl,
   (C4_mover_priority
      { move_up := (Control.init 0).activate 2, move_right := (Control.init 0).activate 2,
        move_down := (Control.init 0).activate 5, move_left := (Control.init 0).activate 5 }
      300 100 0 { location := { x := 300, y := 100 } }).2.2.2.1 rfl⟩

/-- C5: if none of the four directional Controls is activated, then
`move_character` leaves the character's coordinates unchanged; the
operation is total (it is a plain function of the state, with no failure). -/
theorem C5_mover_noop (ctrl : ControllerState) (ch : Character)
    (hu : ctrl.move_up.activated = false) (hr : ctrl.move_right.activated = false)
    (hd : ctrl.move_down.activated = false) (hl : ctrl.move_left.activated = false) :
    (Mover.move_character ctrl ch).location.x = ch.location.x ∧
    (Mover.move_character ctrl ch).location.y = ch.location.y := by
  simp [Mover.move_character, Character.move_to, Mover.get_new_x, Mover.get_new_y,
    hu, hr, hd, hl]

/-- C5 (witness): a fresh controller state (all controls deactivated) moves
a character at (300, 300) nowhere. -/
theorem C5_mover_noop_witness :
    (Mover.move_character Controller.init
        { location := { x := 300, y := 300 } }).location.x
      = ({ location := { x := 300, y := 300 } } : Character).location.x ∧
    (Mover.move_character Controller.init
        { location := { x := 300, y := 300 } }).location.y
      = ({ location := { x := 300, y := 300 } } : Character).location.y :=
  C5_mover_noop Controller.init { location := { x := 300, y := 300 } } rfl rfl rfl rfl

/-! ### Claims C6-C8 -/

lemma controlInvariant_ite (P : Prop) [Decidable P] (c : Control) (v : ℚ)
    (h : ControlInvariant c) : ControlInvariant (if P then c.activate v else c) := by
  by_cases hp : P
  · simp [hp, ControlInvariant]
  · simpa [hp] using h

lemma activated_ite (P : Prop) [Decidable P] (c : Control) (v : ℚ)
    (h : c.activated = true) : (if P then c.activate v else c).activated = true := by
  by_cases hp : P <;> simp [hp, h]

/-- C6: the invariant "activated == false implies value == 0" holds of a
freshly constructed Control and is preserved by activate (any magnitude),
deactivate, deactivate_all_controls, and both survey implementations. -/
theorem C6_invariant_preserved :
    (∀ k : Int, ControlInvariant (Control.init k)) ∧
    (∀ (c : Control) (v : ℚ), ControlInvariant (c.activate v)) ∧
    (∀ c : Control, ControlInvariant c.deactivate) ∧
    (∀ s : ControllerState,
      ControllerInvariant (Controller.deactivate_all_controls s)) ∧
    (∀ (keys : Int → Bool) (s : ControllerState), ControllerInvariant s →
      ControllerInvariant (PygameKeyboardController.conduct_survey_of_controls keys s)) ∧
    (∀ (d : ℚ) (ga : Int → ℚ) (s : ControllerState), ControllerInvariant s →
      ControllerInvariant (PygameGamepadController.conduct_survey_of_controls d ga s)) := by
  refine ⟨fun k _ => rfl, fun c v h => ?_, fun c _ => rfl,
    fun s => ⟨fun _ => rfl, fun _ => rfl, fun _ => rfl, fun _ => rfl⟩,
    fun keys s hs => ?_, fun d ga s hs => ?_⟩
  · simp [Control.activate] at h
  · rw [keyboard_survey_eq]
    exact ⟨controlInvariant_ite _ _ _ hs.1, controlInvariant_ite _ _ _ hs.2.1,
      controlInvariant_ite _ _ _ hs.2.2.1, controlInvariant_ite _ _ _ hs.2.2.2⟩
  · rw [gamepad_survey_eq]
    exact ⟨controlInvariant_ite _ _ _ hs.1, controlInvariant_ite _ _ _ hs.2.1,
      controlInvariant_ite _ _ _ hs.2.2.1, controlInvariant_ite _ _ _ hs.2.2.2⟩

/-- C6 (witness): the invariant after a keyboard survey with every key
pressed and after a gamepad survey reading 1/2, both from a fresh state. -/
theorem C6_invariant_preserved_witness :
    ControllerInvariant
      (PygameKeyboardController.conduct_survey_of_controls (fun _ => true)
        Controller.init) ∧
    ControllerInvariant
      (PygameGamepadController.conduct_survey_of_controls (5/100) (fun _ => 1/2)
        Controller.init) :=
  ⟨C6_invariant_preserved.2.2.2.2.1 (fun _ => true) Controller.init
      ⟨fun _ => rfl, fun _ => rfl, fun _ => rfl, fun _ => rfl⟩,
   C6_invariant_preserved.2.2.2.2.2 (5/100) (fun _ => 1/2) Controller.init
      ⟨fun _ => rfl, fun _ => rfl, fun _ => rfl, fun _ => rfl⟩⟩

/-- C7: with a fixed raw device state, surveying twice yields the same
Control states as surveying once, for both the keyboard and the gamepad
controller (survey is idempotent within a tick). -/
theorem C7_survey_idempotent (keys : Int → Bool) (d : ℚ) (ga : Int → ℚ)
    (s t : ControllerState) :
    PygameKeyboardController.conduct_survey_of_controls keys
        (PygameKeyboardController.conduct_survey_of_controls keys s)
      = PygameKeyboardController.conduct_survey_of_controls keys s ∧
    PygameGamepadController.conduct_survey_of_controls d ga
        (PygameGamepadController.conduct_survey_of_controls d ga t)
      = PygameGamepadController.conduct_survey_of_controls d ga t := by
  constructor
  · rw [keyboard_survey_eq keys s, keyboard_survey_eq]
    by_cases h1 : keys s.move_up.key_number <;>
      by_cases h2 : keys s.move_right.key_number <;>
        by_cases h3 : keys s.move_down.key_number <;>
          by_cases h4 : keys s.move_left.key_number <;>
            simp [h1, h2, h3, h4]
  · rw [gamepad_survey_eq d ga t, gamepad_survey_eq]
    by_cases h1 : ga 0 = 0 <;>
      by_cases h2 : |ga 0| > d <;>
        by_cases h3 : ga 0 > 0 <;>
          by_cases h4 : ga 1 = 0 <;>
            by_cases h5 : |ga 1| > d <;>
              by_cases h6 : ga 1 < 0 <;>
                simp [h1, h2, h3, h4, h5, h6]

/-- C8: resetting with deactivate_all_controls and then surveying under a
fixed device state yields the same activation flags and values on all four
Controls as a freshly constructed controller of the same variant (same
settings) surveyed once under that state.  For the keyboard variant the
prior state must carry the same key bindings the fresh controller gets from
the settings; the gamepad survey never reads the bindings. -/
theorem C8_deactivate_then_survey_matches_fresh (settings : ControlSettings)
    (keys : Int → Bool) (s : ControllerState) (ga : Int → ℚ) (t : ControllerState)
    (hr : s.move_right.key_number = settings.right.value)
    (hl : s.move_left.key_number = settings.left.value)
    (hu : s.move_up.key_number = settings.up.value)
    (hd : s.move_down.key_number = settings.down.value) :
    SameActivation
      (PygameKeyboardController.conduct_survey_of_controls keys
        (Controller.deactivate_all_controls s))
      (PygameKeyboardController.conduct_survey_of_controls keys
        (PygameKeyboardController.init settings)) ∧
    SameActivation
      (PygameGamepadController.conduct_survey_of_controls
        PygameGamepadController.init_dead_zone ga
        (Controller.deactivate_all_controls t))
      (PygameGamepadController.conduct_survey_of_controls
        PygameGamepadController.init_dead_zone ga
        PygameGamepadController.init) := by
  constructor
  · have heq : Controller.deactivate_all_controls s
        = PygameKeyboardController.init settings := by
      simp [Controller.deactivate_all_controls, PygameKeyboardController.init,
        Control.deactivate, Control.init, hr, hl, hu, hd]
    rw [heq]
    exact ⟨⟨rfl, rfl⟩, ⟨rfl, rfl⟩, ⟨rfl, rfl⟩, ⟨rfl, rfl⟩⟩
  · rw [gamepad_survey_eq, gamepad_survey_eq]
    by_cases h1 : ga 0 = 0 <;>
      by_cases h2 : |ga 0| > PygameGamepadController.init_dead_zone <;>
        by_cases h3 : ga 0 > 0 <;>
          by_cases h4 : ga 1 = 0 <;>
            by_cases h5 : |ga 1| > PygameGamepadController.init_dead_zone <;>
              by_cases h6 : ga 1 < 0 <;>
                simp [SameActivation, Controller.deactivate_all_controls,
                  PygameGamepadController.init, Control.deactivate, Control.init,
                  h1, h2, h3, h4, h5, h6]

/-- C8 (witness): the round-trip applied with concrete settings (right 79,
up 82, left 80, down 81), a prior keyboard state built from those settings,
the key-state table pressing only key 79, a gamepad reading of 1/2, and a
prior gamepad state with default bindings. -/
theorem C8_deactivate_then_survey_matches_fresh_witness :
    SameActivation
      (PygameKeyboardController.conduct_survey_of_controls (fun k => k = 79)
        (Controller.deactivate_all_controls
          (PygameKeyboardController.init
            { right := { value := 79 }, up := { value := 82 },
              left := { value := 80 }, down := { value := 81 } })))
      (PygameKeyboardController.conduct_survey_of_controls (fun k => k = 79)
        (PygameKeyboardController.init
          { right := { value := 79 }, up := { value := 82 },
            left := { value := 80 }, down := { value := 81 } })) ∧
    SameActivation
      (PygameGamepadController.conduct_survey_of_controls
        PygameGamepadController.init_dead_zone (fun _ => 1/2)
        (Controller.deactivate_all_controls Controller.init))
      (PygameGamepadController.conduct_survey_of_controls
        PygameGamepadController.init_dead_zone (fun _ => 1/2)
        PygameGamepadController.init) :=
  C8_deactivate_then_survey_matches_fresh
    { right := { value := 79 }, up := { value := 82 },
      left := { value := 80 }, down := { value := 81 } }
    (fun k => k = 79)
    (PygameKeyboardController.init
      { right := { value := 79 }, up := { value := 82 },
        left := { value := 80 }, down := { value := 81 } })
    (fun _ => 1/2) Controller.init rfl rfl rfl rfl

/-! ### Claims C9-C10 -/

/-- C9 (counterexample): surveying a gamepad controller whose underlying
joystick is unavailable propagates the device error to the caller instead
of deactivating the controls: with a prior state whose `move_right` is
activated, the survey returns the error and no all-deactivated state —
contradicting "conduct_survey_of_controls deactivates all controls and
never raises". -/
theorem C9_counterexample :
    PygameGamepadController.conduct_survey_of_controls_exc (5/100) none
        { move_up := Control.init 1, move_right := (Control.init 0).activate (1/2),
          move_down := Control.init 1, move_left := Control.init 0 }
      = Except.error "Joystick not initialized" := by
  rfl

/-- C9 (amended): a survey on an unavailable gamepad device propagates the
device error to the caller (the method body has no handler and does not
touch the controls); on an available device it returns the ordinary survey
result; and constructing the gamepad controller with zero joysticks present
fails with an index error rather than degrading gracefully. -/
theorem C9_unavailable_device_error_propagates (d : ℚ) (s : ControllerState)
    (dev : Int → ℚ) :
    PygameGamepadController.conduct_survey_of_controls_exc d none s
      = Except.error "Joystick not initialized" ∧
    PygameGamepadController.conduct_survey_of_controls_exc d (some dev) s
      = Except.ok (PygameGamepadController.conduct_survey_of_controls d dev s) ∧
    PygameGamepadController.select_gamepad 0
      = Except.error "list index out of range" := by
  exact ⟨rfl, rfl, rfl⟩

/-- C10: neither survey implementation ever deactivates a Control: every
Control activated before the call is still activated after it, for the
keyboard survey under any key-state table and for the gamepad survey under
any dead zone and axis readings.  Activation is only cleared through
deactivate / deactivate_all_controls. -/
theorem C10_survey_never_deactivates (keys : Int → Bool) (d : ℚ) (ga : Int → ℚ)
    (s t : ControllerState) :
    (s.move_up.activated = true →
      (PygameKeyboardController.conduct_survey_of_controls keys s).move_up.activated
        = true) ∧
    (s.move_right.activated = true →
      (PygameKeyboardController.conduct_survey_of_controls keys s).move_right.activated
        = true) ∧
    (s.move_down.activated = true →
      (PygameKeyboardController.conduct_survey_of_controls keys s).move_down.activated
        = true) ∧
    (s.move_left.activated = true →
      (PygameKeyboardController.conduct_survey_of_controls keys s).move_left.activated
        = true) ∧
    (t.move_up.activated = true →
      (PygameGamepadController.conduct_survey_of_controls d ga t).move_up.activated
        = true) ∧
    (t.move_right.activated = true →
      (PygameGamepadController.conduct_survey_of_controls d ga t).move_right.activated
        = true) ∧
    (t.move_down.activated = true →
      (PygameGamepadController.conduct_survey_of_controls d ga t).move_down.activated
        = true) ∧
    (t.move_left.activated = true →
      (PygameGamepadController.conduct_survey_of_controls d ga t).move_left.activated
        = true) := by
  rw [keyboard_survey_eq, gamepad_survey_eq]
  exact ⟨fun h => activated_ite _ _ _ h, fun h => activated_ite _ _ _ h,
    fun h => activated_ite _ _ _ h, fun h => activated_ite _ _ _ h,
    fun h => activated_ite _ _ _ h, fun h => activated_ite _ _ _ h,
    fun h => activated_ite _ _ _ h, fun h => activated_ite _ _ _ h⟩

/-- C10 (witness): with all four controls activated beforehand, a keyboard
survey with no key pressed and a gamepad survey reading 0 on both axes
leave all four controls activated. -/
theorem C10_survey_never_deactivates_witness :
    (PygameKeyboardController.conduct_survey_of_controls (fun _ => false)
        { move_up := (Control.init 0).activate 1, move_right := (Control.init 0).activate 1,
          move_down := (Control.init 0).activate 1, move_left := (Control.init 0).activate 1
        }).move_right.activated = true ∧
    (PygameGamepadController.conduct_survey_of_controls (5/100) (fun _ => 0)
        { move_up := (Control.init 0).activate 1, move_right := (Control.init 0).activate 1,
          move_down := (Control.init 0).activate 1, move_left := (Control.init 0).activate 1
        }).move_right.activated = true :=
  ⟨(C10_survey_never_deactivates (fun _ => false) (5/100) (fun _ => 0)
      { move_up := (Control.init 0).activate 1, move_right := (Control.init 0).activate 1,
        move_down := (Control.init 0).activate 1, move_left := (Control.init 0).activate 1 }
      { move_up := (Control.init 0).activate 1, move_right := (Control.init 0).activate 1,
        move_down := (Control.init 0).activate 1, move_left := (Control.init 0).activate 1
      }).2.1 rfl,
   (C10_survey_never_deactivates (fun _ => false) (5/100) (fun _ => 0)
      { move_up := (Control.init 0).activate 1, move_right := (Control.init 0).activate 1,
        move_down := (Control.init 0).activate 1, move_left := (Control.init 0).activate 1 }
      { move_up := (Control.init 0).activate 1, move_right := (Control.init 0).activate 1,
        move_down := (Control.init 0).activate 1, move_left := (Control.init 0).activate 1
      }).2.2.2.2.2.1 rfl⟩
